import Mathlib

/-!
Shallow embedding of the arxiv-daily-digest pipeline core
(src/arxiv_fetcher.py, src/summarizer.py, src/main.py).

Modelling conventions:
* Python strings are Lean `String`s; `str.join`, `str.strip` and
  `str.split` (at its one call site, with the fixed separator "/abs/")
  are re-implemented faithfully over `List Char` so that they evaluate
  inside the kernel.
* Timezone-aware datetimes are modelled as `Int` seconds since the epoch
  (UTC); `timedelta(hours=h)` is `h * 3600`.  `datetime.now(timezone.utc)`
  is passed in explicitly as the `now_utc` argument of the operation whose
  Python body calls it.
* The network is modelled by passing the outcome of each external call as
  an explicit argument: the single `urllib.request.urlopen` call of
  `fetch_papers` receives a `TransportResult`, and the per-paper
  `chat.completions.create` calls of the summarizer receive a
  `Nat → ServiceOutcome` oracle (call number ↦ outcome).  Operations also
  report how many external calls their Python body issues.
* An XML feed entry is modelled as a record of the fields `_parse_entry`
  reads; a field is `none` when the corresponding element is missing (so
  `.text` would raise).  The stdlib ISO-8601 parse of the `published` /
  `updated` strings is abstracted: the entry carries `Option Int`, `none`
  meaning the element is missing or `datetime.fromisoformat` raises.
-/

/-- Python `str.join`: `pyJoin sep xs` concatenates `xs` with `sep`
between consecutive elements, returning `""` on the empty list. -/
def pyJoin (sep : String) : List String → String
  | [] => ""
  | [s] => s
  | s :: rest => s ++ sep ++ pyJoin sep rest

/-- Helper for `pyStrip`: drop leading whitespace characters
(Python `str.lstrip`). -/
def lstripChars : List Char → List Char
  | [] => []
  | c :: cs => if c.isWhitespace then lstripChars cs else c :: cs

/-- Python `str.strip`: remove whitespace from both ends. -/
def pyStrip (s : String) : String :=
  String.mk (lstripChars (lstripChars s.data.reverse).reverse)

/-- Python `str.split("/abs/")`: left-to-right, non-overlapping split on
the separator `"/abs/"` (the separator `_parse_entry` uses).  At each
position, if the separator starts there the current chunk is cut and
scanning resumes after the whole separator; otherwise scanning advances
one character.  The result is never empty. -/
def splitAbs : List Char → List (List Char)
  | '/' :: 'a' :: 'b' :: 's' :: '/' :: rest => [] :: splitAbs rest
  | c :: rest =>
      match splitAbs rest with
      | chunk :: chunks => (c :: chunk) :: chunks
      | [] => [[c]]
  | [] => [[]]

/-- Embeds `arxiv_id.split('/abs/')[-1]` from `_parse_entry`
(src/arxiv_fetcher.py line 158): the last element of the split. -/
def extractId (raw : String) : String :=
  String.mk ((splitAbs raw.data).getLastD [])

/-- Paper record produced by the fetcher (the dict literal of
`_parse_entry`, src/arxiv_fetcher.py lines 157-166).  `summary` models
the optional `'summary'` dict key: `none` while the key is absent (as the
fetcher creates it), `some s` once a stage has set it. -/
structure Paper where
  id : String
  title : String
  authors : List String
  abstract : String
  published : Int
  updated : Int
  pdf_url : Option String
  arxiv_url : String
  summary : Option String
deriving DecidableEq

/-- One `<link>` element of a feed entry: its `title` attribute and
`href` attribute, each possibly absent (`Element.get` returns `None`). -/
structure RawLink where
  title_attr : Option String
  href : Option String

/-- One `<entry>` element of the Atom response, holding exactly the
fields `_parse_entry` reads.  Text fields are `none` when the element is
missing (so `.find(...).text` raises `AttributeError`); `published_parsed`
and `updated_parsed` abstract `datetime.fromisoformat` applied to the
element text, `none` meaning the element is missing or the parse raises. -/
structure RawEntry where
  id_text : Option String
  title_text : Option String
  summary_text : Option String
  published_parsed : Option Int
  updated_parsed : Option Int
  author_names : List (Option String)
  links : List RawLink

/-- Embeds the author loop of `_parse_entry` (lines 145-148): each
`<author>` contributes its `<name>` text; a missing name raises, which the
surrounding `try` turns into a failure of the whole entry. -/
def collectAuthors : List (Option String) → Option (List String)
  | [] => some []
  | none :: _ => none
  | some n :: rest => (collectAuthors rest).map (fun names => n :: names)

/-- Embeds the PDF-link loop of `_parse_entry` (lines 150-155): the
`href` of the first link whose `title` attribute is `"pdf"`, else `None`. -/
def find_pdf_link : List RawLink → Option String
  | [] => none
  | l :: ls => if l.title_attr = some "pdf" then l.href else find_pdf_link ls

/-- Embeds `ArxivFetcher._parse_entry` (src/arxiv_fetcher.py lines
122-169): extract the required fields, any failure (missing element,
unparseable date) making the whole entry yield `None`. -/
def parse_entry (entry : RawEntry) : Option Paper := do
  let arxiv_id ← entry.id_text
  let title ← entry.title_text
  let abstract ← entry.summary_text
  let published ← entry.published_parsed
  let updated ← entry.updated_parsed
  let authors ← collectAuthors entry.author_names
  let pdf_url := find_pdf_link entry.links
  pure { id := extractId arxiv_id
         title := pyStrip title
         authors := authors
         abstract := pyStrip abstract
         published := published
         updated := updated
         pdf_url := pdf_url
         arxiv_url := arxiv_id
         summary := none }

/-- State of an `ArxivFetcher` instance (src/arxiv_fetcher.py lines
24-38). -/
structure ArxivFetcher where
  categories : List String
  time_window_hours : Int
  max_results : Nat
  cutoff_date : Int

/-- Embeds `ArxivFetcher.__init__` (lines 24-38): `now_utc` is the value
of `datetime.now(timezone.utc)` at construction time; `cutoff_date` is
computed here, once, and stored on the instance. -/
def ArxivFetcher.init (categories : List String) (time_window_hours : Int)
    (max_results : Nat) (now_utc : Int) : ArxivFetcher :=
  { categories := categories
    time_window_hours := time_window_hours
    max_results := max_results
    cutoff_date := now_utc - time_window_hours * 3600 }

/-- Embeds the loop body building `keyword_parts` in `build_query`
(lines 59-64): a one-element group renders bare, any other length renders
as a parenthesized AND-join. -/
def keyword_part (group : List String) : String :=
  if group.length = 1 then "all:" ++ group.headD ""
  else "(" ++ pyJoin " AND " (group.map (fun kw => "all:" ++ kw)) ++ ")"

/-- Embeds `ArxivFetcher.build_query` (lines 40-71). -/
def ArxivFetcher.build_query (f : ArxivFetcher)
    (keyword_groups : List (List String)) : String :=
  let cat_query := pyJoin " OR " (f.categories.map (fun cat => "cat:" ++ cat))
  let keyword_query := pyJoin " OR " (keyword_groups.map keyword_part)
  "(" ++ cat_query ++ ") AND (" ++ keyword_query ++ ")"

/-- Outcome of the single `urllib.request.urlopen` call of
`fetch_papers`: a raised transport exception, or a response body already
parsed into its list of `<entry>` elements. -/
inductive TransportResult where
  | failure (message : String)
  | success (entries : List RawEntry)

/-- Embeds `ArxivFetcher.fetch_papers` (lines 73-120).  The first
component is the returned paper list; the second counts the network
requests the body issues (the body performs its one `urlopen` call
unconditionally, inside a single `try` with no loop and no retry, so
this is 1 on every path). -/
def ArxivFetcher.fetch_papers (f : ArxivFetcher) (transport : TransportResult) :
    List Paper × Nat :=
  match transport with
  | .failure _ => ([], 1)
  | .success entries =>
      (entries.filterMap (fun entry =>
        match parse_entry entry with
        | some paper => if paper.published ≥ f.cutoff_date then some paper else none
        | none => none), 1)

/-- State of a `PaperSummarizer` instance (src/summarizer.py lines
17-39).  The float `temperature` is modelled as a rational. -/
structure PaperSummarizer where
  model : String
  max_tokens : Nat
  temperature : Rat
  api_key : String

/-- Embeds `PaperSummarizer.__init__` (src/summarizer.py lines 17-39):
`env_openai_api_key` is the value of `os.getenv('OPENAI_API_KEY')`
(`none` when the variable is unset); `if not api_key` also treats the
empty string as missing; a missing key raises `ValueError`, modelled as
`Except.error` carrying the message. -/
def PaperSummarizer.init (model : String) (max_tokens : Nat)
    (temperature : Rat) (env_openai_api_key : Option String) :
    Except String PaperSummarizer :=
  match env_openai_api_key with
  | none =>
      .error ("OPENAI_API_KEY environment variable not set. " ++
        "Please set it with your OpenAI API key.")
  | some key =>
      if key = "" then
        .error ("OPENAI_API_KEY environment variable not set. " ++
          "Please set it with your OpenAI API key.")
      else
        .ok { model := model, max_tokens := max_tokens,
              temperature := temperature, api_key := key }

/-- Outcome of one `chat.completions.create` call: any raised exception
(network error, API error, `None` content), or the returned message
content string. -/
inductive ServiceOutcome where
  | raises (message : String)
  | returns (content : String)

/-- Embeds `PaperSummarizer.summarize_paper` (src/summarizer.py lines
41-79): on success the stripped content is returned, any exception is
caught and yields `None`. -/
def PaperSummarizer.summarize_paper (_s : PaperSummarizer)
    (outcome : ServiceOutcome) : Option String :=
  match outcome with
  | .raises _ => none
  | .returns content => some (pyStrip content)

/-- Loop of `summarize_papers` (src/summarizer.py lines 93-107), with
`i` the zero-based index of the next service call: each paper gets one
service call; `paper.copy()` plus the `'summary'` key becomes a new
record `{ paper with summary := some ... }`; Python's
`summary if summary else "Summary unavailable"` treats both `None` and
the empty string as falsy. -/
def summarizePapersGo (s : PaperSummarizer) (oracle : Nat → ServiceOutcome) :
    Nat → List Paper → List Paper
  | _, [] => []
  | i, paper :: rest =>
      let summary := s.summarize_paper (oracle i)
      let summary_value :=
        match summary with
        | some text => if text = "" then "Summary unavailable" else text
        | none => "Summary unavailable"
      { paper with summary := some summary_value } ::
        summarizePapersGo s oracle (i + 1) rest

/-- Embeds `PaperSummarizer.summarize_papers` (src/summarizer.py lines
81-107): the `oracle` gives the outcome of the `i`-th service call. -/
def PaperSummarizer.summarize_papers (s : PaperSummarizer)
    (oracle : Nat → ServiceOutcome) (papers : List Paper) : List Paper :=
  summarizePapersGo s oracle 0 papers

/-- Observable result of the summarization part of `run_digest`:
`papers_after` is the caller's `papers` list as it stands after the stage
(the no-key fallback assigns `paper['summary']` on the existing records
in place, so there it differs from the input); `summarized_papers` is the
value bound to that variable in `run_digest`; `service_calls` counts the
`chat.completions.create` invocations the stage issues. -/
structure StageResult where
  papers_after : List Paper
  summarized_papers : List Paper
  service_calls : Nat

/-- Embeds the summarization stage of `run_digest` (src/main.py lines
96-117): construct the summarizer; on `ValueError` (missing key) write
the sentinel `"AI summary unavailable (no API key)"` into every existing
paper record in place and alias `summarized_papers = papers`, issuing no
service call; otherwise call `summarize_papers`, which copies each record
and issues one service call per paper. -/
def run_digest_summarization (model : String) (max_tokens : Nat)
    (temperature : Rat) (env_openai_api_key : Option String)
    (oracle : Nat → ServiceOutcome) (papers : List Paper) : StageResult :=
  match PaperSummarizer.init model max_tokens temperature env_openai_api_key with
  | .error _ =>
      let mutated := papers.map (fun paper =>
        { paper with summary := some "AI summary unavailable (no API key)" })
      { papers_after := mutated
        summarized_papers := mutated
        service_calls := 0 }
  | .ok summarizer =>
      { papers_after := papers
        summarized_papers := summarizer.summarize_papers oracle papers
        service_calls := papers.length }

/-- Follows the words of the specification (section 4.1): each category
is rendered as `cat:<value>`, all categories OR-joined. -/
def spec_cat_clause (categories : List String) : String :=
  pyJoin " OR " (categories.map (fun c => "cat:" ++ c))

/-- Follows the words of the specification (section 4.1): a group of
size 1 renders as `all:<term>` without parentheses; a larger group as a
parenthesized AND-join of `all:<ti>`. -/
def spec_group_clause : List String → String
  | [t] => "all:" ++ t
  | group => "(" ++ pyJoin " AND " (group.map (fun t => "all:" ++ t)) ++ ")"

/-- Follows the words of the specification (section 4.1): final
expression `(category-clause) AND (keyword-clause)`, the keyword clause
OR-joining the per-group clauses. -/
def spec_build_query (categories : List String)
    (keyword_groups : List (List String)) : String :=
  "(" ++ spec_cat_clause categories ++ ") AND (" ++
    pyJoin " OR " (keyword_groups.map spec_group_clause) ++ ")"

/-- Follows the words of claim C10: does the character list contain the
substring `/abs/` anywhere? -/
def containsAbs : List Char → Bool
  | '/' :: 'a' :: 'b' :: 's' :: '/' :: _ => true
  | _ :: rest => containsAbs rest
  | [] => false

/-- Follows the words of claim C10: does `/abs/` start at this exact
position? -/
def absAt (l : List Char) : Bool :=
  match l with
  | '/' :: 'a' :: 'b' :: 's' :: '/' :: _ => true
  | _ => false

/-- Follows the words of claim C10: the substring after the last
(rightmost) occurrence of `/abs/` in the raw id, the whole string when
there is no occurrence. -/
def suffixAfterLastAbs (raw : String) : String :=
  match ((List.range raw.data.length).filter
      (fun i => absAt (raw.data.drop i))).getLast? with
  | none => raw
  | some i => String.mk (raw.data.drop (i + 5))

/-- Agreement of two paper records on every field except `summary`
(claim C8's "every pre-existing field"). -/
def agreesExceptSummary (a b : Paper) : Prop :=
  a.id = b.id ∧ a.title = b.title ∧ a.authors = b.authors ∧
  a.abstract = b.abstract ∧ a.published = b.published ∧
  a.updated = b.updated ∧ a.pdf_url = b.pdf_url ∧ a.arxiv_url = b.arxiv_url

/-- Sample well-formed feed entry used to instantiate proved theorems. -/
def sampleEntry : RawEntry :=
  { id_text := some "http://arxiv.org/abs/2101.00001v2"
    title_text := some " Machine Learning Potentials "
    summary_text := some "We present a method."
    published_parsed := some 0
    updated_parsed := some 3600
    author_names := [some "Smith, J.", some "Doe, A."]
    links := [{ title_attr := some "pdf",
                href := some "http://arxiv.org/pdf/2101.00001v2" }] }

/-- The paper record `parse_entry` produces from `sampleEntry`. -/
def samplePaper : Paper :=
  { id := "2101.00001v2"
    title := "Machine Learning Potentials"
    authors := ["Smith, J.", "Doe, A."]
    abstract := "We present a method."
    published := 0
    updated := 3600
    pdf_url := some "http://arxiv.org/pdf/2101.00001v2"
    arxiv_url := "http://arxiv.org/abs/2101.00001v2"
    summary := none }

/-- Each keyword group renders the same under the code's length-test and
the specification's by-shape description. -/
theorem keyword_part_eq_spec_group_clause (g : List String) :
    keyword_part g = spec_group_clause g := by
  match g with
  | [] => rfl
  | [t] => rfl
  | t1 :: t2 :: ts => rfl

/-- C1: for every fetcher (category list) and every list of non-empty
keyword groups, `build_query` returns exactly
`"(" ++ cats ++ ") AND (" ++ kws ++ ")"`, with `cats` the " OR "-join of
the `cat:<c>` renderings and `kws` the " OR "-join of the per-group
clauses (`all:<t>` for a singleton group, a parenthesized " AND "-join
for a larger group). -/
theorem build_query_renders_spec_formula (f : ArxivFetcher)
    (keyword_groups : List (List String))
    (_hne : ∀ g ∈ keyword_groups, g ≠ []) :
    f.build_query keyword_groups = spec_build_query f.categories keyword_groups := by
  have h : keyword_part = spec_group_clause :=
    funext keyword_part_eq_spec_group_clause
  simp [ArxivFetcher.build_query, spec_build_query, spec_cat_clause, h]

/-- Witness for C1 at the configuration of the repository's own test
suite. -/
theorem build_query_renders_spec_formula_witness :
    (ArxivFetcher.init ["cond-mat.mtrl-sci", "physics.comp-ph"] 24 100 0).build_query
        [["dislocation", "molecular dynamics"], ["atomistic simulation"]] =
      spec_build_query ["cond-mat.mtrl-sci", "physics.comp-ph"]
        [["dislocation", "molecular dynamics"], ["atomistic simulation"]] :=
  build_query_renders_spec_formula _ _ (by decide)

/-- C5: when the single network request raises, `fetch_papers` catches
the exception and returns the empty list, having issued exactly one
request and no retry. -/
theorem transport_failure_empty_no_retry (f : ArxivFetcher) (message : String) :
    f.fetch_papers (.failure message) = ([], 1) := rfl

/-- A cons cell whose tail is free of `/abs/` and whose head position
does not start `/abs/` is itself free of `/abs/`. -/
theorem containsAbs_cons (c : Char) (rest : List Char)
    (h : containsAbs (c :: rest) = false) : containsAbs rest = false := by
  rw [containsAbs.eq_def] at h
  split at h
  · simp at h
  · rename_i c2 rest2 heq
    injection heq with e1 e2
    subst e2
    exact h
  · rename_i heq
    exact absurd heq (by simp)

/-- Splitting a character list that nowhere contains `/abs/` yields the
one-element list holding the whole input. -/
theorem splitAbs_of_not_contains (l : List Char) (h : containsAbs l = false) :
    splitAbs l = [l] := by
  induction l using splitAbs.induct with
  | case1 rest ih => simp [containsAbs] at h
  | case2 c rest hne chunk chunks hmatch ih =>
    have hrest := ih (containsAbs_cons c rest h)
    rw [splitAbs.eq_def]
    split
    · rename_i rest2 heq
      exact absurd heq (by
        intro he
        injection he with h1 h2
        exact hne rest2 h1 h2)
    · rename_i c2 rest2 hne2 heq
      injection heq with e1 e2
      subst e1
      subst e2
      rw [hrest]
    · rename_i heq
      exact absurd heq (by simp)
  | case3 c rest hne hmatch ih =>
    have hrest := ih (containsAbs_cons c rest h)
    rw [hrest] at hmatch
    exact absurd hmatch (by simp)
  | case4 => rfl

/-- C10 counterexample: on the raw id `"/abs/abs/"`, which does contain
`/abs/`, the extraction returns `"abs/"` (the last element of the
left-to-right non-overlapping split), not the substring `""` that
follows the last (rightmost) occurrence of `/abs/`, so the claim's
"substring after the last occurrence" description fails as stated. -/
theorem extractId_not_suffix_after_last_occurrence :
    containsAbs ("/abs/abs/").data = true ∧
    suffixAfterLastAbs "/abs/abs/" = "" ∧
    extractId "/abs/abs/" = "abs/" ∧
    extractId "/abs/abs/" ≠ suffixAfterLastAbs "/abs/abs/" :=
  ⟨by decide, by decide, by decide, by decide⟩

/-- C10 amended: canonical id extraction returns the last element of the
left-to-right non-overlapping split of the raw id on `/abs/`; in
particular, when the raw id contains no `/abs/` substring at all the
extraction does not fail and returns the entire raw id unchanged. -/
theorem extractId_no_occurrence (raw : String)
    (h : containsAbs raw.data = false) : extractId raw = raw := by
  unfold extractId
  rw [splitAbs_of_not_contains raw.data h]
  cases raw with
  | mk data => rfl

/-- Witness for C10's amended theorem: a bare arXiv identifier contains
no `/abs/` and is returned unchanged. -/
theorem extractId_no_occurrence_witness :
    containsAbs ("2101.00001v2").data = false ∧
    extractId "2101.00001v2" = "2101.00001v2" :=
  ⟨by decide, extractId_no_occurrence _ (by decide)⟩

/-- C9: canonical id extraction keeps only the token after the `/abs/`
path prefix — on the raw id `"http://arxiv.org/abs/2101.00001v2"` it
yields exactly `"2101.00001v2"` — while the record's `arxiv_url`
(landing-page URL) field keeps the full raw id string: every record
`_parse_entry` produces has `id = extractId raw` and `arxiv_url = raw`
for `raw` the entry's raw id text. -/
theorem canonical_id_extraction :
    extractId "http://arxiv.org/abs/2101.00001v2" = "2101.00001v2" ∧
    ∀ (entry : RawEntry) (p : Paper) (raw : String),
      entry.id_text = some raw → parse_entry entry = some p →
        p.id = extractId raw ∧ p.arxiv_url = raw := by
  refine ⟨by decide, ?_⟩
  intro entry p raw hid hp
  simp only [parse_entry, hid, Option.bind_eq_bind, Option.some_bind,
    Option.bind_eq_some] at hp
  obtain ⟨title, htt, abstract, hst, pub, hpt, upd, hut, auths, hau, hp⟩ := hp
  cases hp
  exact ⟨rfl, rfl⟩

/-- Witness for C9 at the claim's own input, via `sampleEntry`. -/
theorem canonical_id_extraction_witness :
    samplePaper.id = extractId "http://arxiv.org/abs/2101.00001v2" ∧
    samplePaper.arxiv_url = "http://arxiv.org/abs/2101.00001v2" :=
  canonical_id_extraction.2 sampleEntry samplePaper
    "http://arxiv.org/abs/2101.00001v2" rfl (by decide)

/-- C2: a successfully parsed entry's paper is kept by `fetch_papers`
iff its published timestamp is at least the cutoff — inclusive at the
boundary, excluded strictly before it. -/
theorem fetch_papers_date_filter_iff (f : ArxivFetcher)
    (entries : List RawEntry) (entry : RawEntry) (p : Paper)
    (hmem : entry ∈ entries) (hparse : parse_entry entry = some p) :
    p ∈ (f.fetch_papers (.success entries)).1 ↔
      p.published ≥ f.cutoff_date := by
  simp only [ArxivFetcher.fetch_papers]
  rw [List.mem_filterMap]
  constructor
  · rintro ⟨a, hamem, ha⟩
    rcases hpa : parse_entry a with _ | q
    · rw [hpa] at ha
      simp at ha
    · rw [hpa] at ha
      dsimp only at ha
      split at ha
      · rename_i hc
        cases ha
        exact hc
      · simp at ha
  · intro hge
    refine ⟨entry, hmem, ?_⟩
    rw [hparse]
    simp [hge]

/-- Witness for C2: a paper published exactly at epoch is kept by a
fetcher whose cutoff lies one day earlier. -/
theorem fetch_papers_date_filter_iff_witness :
    samplePaper ∈ ((ArxivFetcher.init ["cs.AI"] 24 100 0).fetch_papers
        (.success [sampleEntry])).1 :=
  (fetch_papers_date_filter_iff _ [sampleEntry] sampleEntry samplePaper
    (List.mem_singleton.mpr rfl) (by decide)).mpr (by decide)

/-- Entry published 83000 seconds before the epoch, used to exhibit the
construction-time cutoff. -/
def staleEntry : RawEntry := { sampleEntry with published_parsed := some (-83000) }

/-- The paper record `parse_entry` produces from `staleEntry`. -/
def stalePaper : Paper := { samplePaper with published := -83000 }

/-- C3 counterexample: for a fetcher constructed at instant 1000 with a
24-hour window, the cutoff its date filter uses is `1000 - 24 * 3600`
(construction time minus the window), not `5000 - 24 * 3600` as the
claim would require of a fetch call made at instant 5000; behaviourally,
a paper published at `-83000` — strictly before the claimed fetch-time
cutoff `5000 - 86400 = -81400` — is nevertheless returned, because every
fetch call on this fetcher reuses the one cutoff stored by `__init__`. -/
theorem fetch_cutoff_not_fetch_time :
    (ArxivFetcher.init ["cs.AI"] 24 100 1000).cutoff_date = 1000 - 24 * 3600 ∧
    (ArxivFetcher.init ["cs.AI"] 24 100 1000).cutoff_date ≠ 5000 - 24 * 3600 ∧
    ((ArxivFetcher.init ["cs.AI"] 24 100 1000).fetch_papers
        (.success [staleEntry])).1 = [stalePaper] :=
  ⟨by decide, by decide, by decide⟩

/-- C3 amended: the cutoff instant used by the date filter equals the
current UTC time at the moment the fetcher is CONSTRUCTED minus the
window; it is computed once in `__init__` and reused unchanged by every
fetch call on that fetcher, so any paper any fetch call returns has
`published ≥ construction-time - window`. -/
theorem fetch_filter_uses_construction_cutoff (categories : List String)
    (w : Int) (m : Nat) (now_utc : Int) (transport : TransportResult)
    (p : Paper)
    (hp : p ∈ ((ArxivFetcher.init categories w m now_utc).fetch_papers
      transport).1) :
    (ArxivFetcher.init categories w m now_utc).cutoff_date =
        now_utc - w * 3600 ∧
    p.published ≥ now_utc - w * 3600 := by
  refine ⟨rfl, ?_⟩
  cases transport with
  | failure message => simp [ArxivFetcher.fetch_papers] at hp
  | success entries =>
    simp only [ArxivFetcher.fetch_papers] at hp
    rw [List.mem_filterMap] at hp
    obtain ⟨a, hamem, ha⟩ := hp
    rcases hpa : parse_entry a with _ | q
    · rw [hpa] at ha
      simp at ha
    · rw [hpa] at ha
      dsimp only at ha
      split at ha
      · rename_i hc
        cases ha
        exact hc
      · simp at ha

/-- Witness for C3's amended theorem at a fetcher constructed at the
epoch. -/
theorem fetch_filter_uses_construction_cutoff_witness :
    (ArxivFetcher.init ["cs.AI"] 24 100 0).cutoff_date = 0 - 24 * 3600 ∧
    samplePaper.published ≥ 0 - 24 * 3600 :=
  fetch_filter_uses_construction_cutoff ["cs.AI"] 24 100 0
    (.success [sampleEntry]) samplePaper (by decide)

/-- C4: a batch of five entries of which exactly one fails to parse and
the other four parse to papers passing the date filter yields exactly
those four papers, in feed order, with no exception escaping. -/
theorem one_malformed_entry_skipped (f : ArxivFetcher)
    (e1 e2 e3 e4 e5 : RawEntry) (p1 p2 p4 p5 : Paper)
    (h1 : parse_entry e1 = some p1) (g1 : p1.published ≥ f.cutoff_date)
    (h2 : parse_entry e2 = some p2) (g2 : p2.published ≥ f.cutoff_date)
    (h3 : parse_entry e3 = none)
    (h4 : parse_entry e4 = some p4) (g4 : p4.published ≥ f.cutoff_date)
    (h5 : parse_entry e5 = some p5) (g5 : p5.published ≥ f.cutoff_date) :
    (f.fetch_papers (.success [e1, e2, e3, e4, e5])).1 = [p1, p2, p4, p5] := by
  simp [ArxivFetcher.fetch_papers, List.filterMap_cons,
    h1, h2, h3, h4, h5, g1, g2, g4, g5]

/-- An entry whose `<title>` element is missing, so `.text` raises and
`_parse_entry` returns `None` for it. -/
def malformedEntry : RawEntry := { sampleEntry with title_text := none }

/-- Witness for C4: five concrete entries, the third malformed, give the
four good papers in order. -/
theorem one_malformed_entry_skipped_witness :
    ((ArxivFetcher.init ["cs.AI"] 24 100 0).fetch_papers
        (.success [sampleEntry, sampleEntry, malformedEntry,
          sampleEntry, sampleEntry])).1 =
      [samplePaper, samplePaper, samplePaper, samplePaper] :=
  one_malformed_entry_skipped (ArxivFetcher.init ["cs.AI"] 24 100 0)
    sampleEntry sampleEntry malformedEntry sampleEntry sampleEntry
    samplePaper samplePaper samplePaper samplePaper
    (by decide) (by decide) (by decide) (by decide) (by decide)
    (by decide) (by decide) (by decide) (by decide)

/-- C6: with the credential environment variable unset, the summarizer
constructor raises (`Except.error`), `run_digest` catches it, every paper
receives the fixed sentinel `"AI summary unavailable (no API key)"`, the
output has one record per input paper, and zero summarization service
calls are issued. -/
theorem missing_api_key_all_sentinel_no_calls (model : String)
    (max_tokens : Nat) (temperature : Rat) (oracle : Nat → ServiceOutcome)
    (papers : List Paper) :
    (∃ msg, PaperSummarizer.init model max_tokens temperature none =
      .error msg) ∧
    run_digest_summarization model max_tokens temperature none oracle papers =
      { papers_after := papers.map (fun p =>
          { p with summary := some "AI summary unavailable (no API key)" })
        summarized_papers := papers.map (fun p =>
          { p with summary := some "AI summary unavailable (no API key)" })
        service_calls := 0 } ∧
    (run_digest_summarization model max_tokens temperature none oracle
      papers).summarized_papers.length = papers.length := by
  refine ⟨⟨_, rfl⟩, rfl, ?_⟩
  simp [run_digest_summarization, PaperSummarizer.init]

/-- C7: if the service call for the middle paper of three raises while
the calls for the first and third return non-empty text,
`summarize_papers` still returns three records, the middle one carrying
the sentinel `"Summary unavailable"` and the outer two the real
(stripped) returned text. -/
theorem per_paper_failure_sentinel (s : PaperSummarizer) (p1 p2 p3 : Paper)
    (t1 t3 message : String) (h1 : pyStrip t1 ≠ "") (h3 : pyStrip t3 ≠ "") :
    s.summarize_papers
        (fun i => if i = 0 then .returns t1 else
          if i = 1 then .raises message else .returns t3)
        [p1, p2, p3] =
      [{ p1 with summary := some (pyStrip t1) },
       { p2 with summary := some "Summary unavailable" },
       { p3 with summary := some (pyStrip t3) }] := by
  simp [PaperSummarizer.summarize_papers, summarizePapersGo,
    PaperSummarizer.summarize_paper, h1, h3]

/-- A summarizer instance with a present credential, used to instantiate
proved theorems. -/
def sampleSummarizer : PaperSummarizer :=
  { model := "gpt-4o-mini", max_tokens := 150, temperature := 3 / 10,
    api_key := "sk-test" }

/-- Witness for C7 with concrete non-empty summaries. -/
theorem per_paper_failure_sentinel_witness :
    sampleSummarizer.summarize_papers
        (fun i => if i = 0 then .returns "Finds X." else
          if i = 1 then .raises "APIError" else .returns "Finds Y.")
        [samplePaper, samplePaper, samplePaper] =
      [{ samplePaper with summary := some (pyStrip "Finds X.") },
       { samplePaper with summary := some "Summary unavailable" },
       { samplePaper with summary := some (pyStrip "Finds Y.") }] :=
  per_paper_failure_sentinel sampleSummarizer samplePaper samplePaper
    samplePaper "Finds X." "Finds Y." "APIError" (by decide) (by decide)

/-- C8 counterexample: on the no-credential path of `run_digest`, the
input records are NOT left unchanged — the stage writes the sentinel
into the existing records in place, so the caller's list after the stage
differs from the input, and the returned list is that same mutated
list rather than a fresh one. -/
theorem no_key_fallback_mutates_input :
    (run_digest_summarization "gpt-4o-mini" 150 (3 / 10) none
        (fun _ => ServiceOutcome.raises "unused") [samplePaper]).papers_after ≠
      [samplePaper] ∧
    (run_digest_summarization "gpt-4o-mini" 150 (3 / 10) none
        (fun _ => ServiceOutcome.raises "unused") [samplePaper]).papers_after =
      (run_digest_summarization "gpt-4o-mini" 150 (3 / 10) none
        (fun _ => ServiceOutcome.raises "unused")
        [samplePaper]).summarized_papers :=
  ⟨by decide, rfl⟩

/-- Each step of the `summarize_papers` loop emits a fresh record that
agrees with its input record on every field except the added summary. -/
theorem summarizePapersGo_forall₂ (s : PaperSummarizer)
    (oracle : Nat → ServiceOutcome) (i : Nat) (papers : List Paper) :
    List.Forall₂
      (fun out inp => agreesExceptSummary out inp ∧ ∃ t, out.summary = some t)
      (summarizePapersGo s oracle i papers) papers := by
  induction papers generalizing i with
  | nil => exact List.Forall₂.nil
  | cons p ps ih =>
    exact List.Forall₂.cons
      ⟨⟨rfl, rfl, rfl, rfl, rfl, rfl, rfl, rfl⟩, _, rfl⟩ (ih (i + 1))

/-- C8 amended: with a credential present, the summarization stage
(`summarize_papers`, the path `run_digest` takes when the constructor
succeeds) mutates nothing: the caller's list after the stage is the
untouched input, and the output pairs with the input elementwise (same
length and order), each output record agreeing with its input record on
every pre-existing field and carrying the one added summary field.  The
no-credential fallback instead sets the summary field on the input
records themselves and returns that same mutated list. -/
theorem summarize_papers_new_records (model key : String) (max_tokens : Nat)
    (temperature : Rat) (hkey : key ≠ "") (oracle : Nat → ServiceOutcome)
    (papers : List Paper) :
    (run_digest_summarization model max_tokens temperature (some key) oracle
        papers).papers_after = papers ∧
    List.Forall₂
      (fun out inp => agreesExceptSummary out inp ∧ ∃ t, out.summary = some t)
      (run_digest_summarization model max_tokens temperature (some key) oracle
        papers).summarized_papers
      papers := by
  refine ⟨?_, ?_⟩
  · simp [run_digest_summarization, PaperSummarizer.init, if_neg hkey]
  · simp only [run_digest_summarization, PaperSummarizer.init, if_neg hkey]
    exact summarizePapersGo_forall₂ _ oracle 0 papers

/-- Witness for C8's amended theorem at a one-paper batch. -/
theorem summarize_papers_new_records_witness :
    (run_digest_summarization "gpt-4o-mini" 150 (3 / 10) (some "sk-test")
        (fun _ => ServiceOutcome.returns "Good summary.")
        [samplePaper]).papers_after = [samplePaper] ∧
    List.Forall₂
      (fun out inp => agreesExceptSummary out inp ∧ ∃ t, out.summary = some t)
      (run_digest_summarization "gpt-4o-mini" 150 (3 / 10) (some "sk-test")
        (fun _ => ServiceOutcome.returns "Good summary.")
        [samplePaper]).summarized_papers
      [samplePaper] :=
  summarize_papers_new_records "gpt-4o-mini" "sk-test" 150 (3 / 10)
    (by decide) (fun _ => ServiceOutcome.returns "Good summary.") [samplePaper]
